import Mathlib

/-!
# Verification of the Geo Engine Python client specification

A shallow embedding of the client library described by the repository's
specification: session management, credential resolution, query rectangles
and their wire serialization, workflow registration, and the query-execution
pipeline against a modelled server.  The repository ships only notebooks,
READMEs and configuration; the library modules themselves are absent, so the
operations are modelled from the specification's contracts (each such
definition is marked `Modelled from the spec:`), with the notebooks' recorded
inputs and outputs as concrete exemplars.

Numeric abstraction: coordinates and resolutions (Python floats in the
client) are modelled as exact rationals, timestamps (millisecond instants)
as integers.  The claims verified here concern ordering, structure and
control flow, not floating-point rounding.
-/

namespace GeoEngine

/-- Modelled from the spec: the error taxonomy of section 7, plus the local
input-validation failure used by constructors and by the local workflow-type
check (the library modules carrying the concrete exception classes are not in
the repository snapshot). -/
inductive GeoEngineError where
  | NotInitializedError
  | ConnectionError (msg : String)
  | AuthenticationError (msg : String)
  | SessionExpiredError
  | ServerError (kind : String) (msg : String)
  | SchemaMismatchError (msg : String)
  | InputError (msg : String)
deriving DecidableEq

/-- Email/password credentials, as passed to initialize or found in the
environment. -/
structure Credentials where
  email : String
  password : String
deriving DecidableEq

/-- Modelled from the spec: a session holds the server base URL, an opaque
auth token, a user identifier and an expiry timestamp (section 3; the
session module is not in the repository snapshot). -/
structure Session where
  server_url : String
  token : String
  user_id : String
  valid_until : Int
deriving DecidableEq

/-- Modelled from the spec: the login request the client sends when creating
a session: anonymous, or credentialed with email and password. -/
inductive LoginRequest where
  | anonymous
  | credentialed (c : Credentials)
deriving DecidableEq

/-- The server's successful answer to a login request: token, user id and
expiry, from which the client builds its session. -/
structure LoginResponse where
  token : String
  user_id : String
  valid_until : Int
deriving DecidableEq

/-- The process environment visible to the client: a lookup from variable
names to values, with any `.env` file from the current working directory
already merged in. -/
def Env := String → Option String

/-- Modelled from the spec: credential resolution order documented in the
README's Authentication section (the implementing module is not in the
repository snapshot).  Explicit credentials win; otherwise the environment
variables GEOENGINE_EMAIL and GEOENGINE_PASSWORD are used when both are
present; otherwise an anonymous session is requested. -/
def resolve_credentials (creds : Option Credentials) (env : Env) : LoginRequest :=
  match creds with
  | some c => LoginRequest.credentialed c
  | none =>
    match env "GEOENGINE_EMAIL", env "GEOENGINE_PASSWORD" with
    | some e, some p => LoginRequest.credentialed ⟨e, p⟩
    | _, _ => LoginRequest.anonymous

/-- Modelled from the spec: `get_session()` returns the current process-wide
session or fails with NotInitializedError if none exists (section 4.1). -/
def get_session : Option Session → Except GeoEngineError Session
  | none => Except.error GeoEngineError.NotInitializedError
  | some s => Except.ok s

/-- Modelled from the spec: `reset()` clears the stored session
(section 4.1). -/
def reset (_ : Option Session) : Option Session := none

/-- Modelled from the spec: `initialize(server_url, credentials?)` (here initialize_session) resolves
credentials, performs a login against the server, and on success stores a
session built from the server's answer and the URL passed in; on failure the
stored session is left untouched and the error is surfaced (section 4.1).
The login exchange is abstracted as a function from login requests to
responses.  Returns the new stored state alongside the call's result. -/
def initialize_session (url : String) (creds : Option Credentials) (env : Env)
    (server : LoginRequest → Except GeoEngineError LoginResponse)
    (st : Option Session) : Option Session × Except GeoEngineError Session :=
  match server (resolve_credentials creds env) with
  | Except.error e => (st, Except.error e)
  | Except.ok r =>
    let s : Session := ⟨url, r.token, r.user_id, r.valid_until⟩
    (some s, Except.ok s)

/-- A JSON value, the transport format of request and response bodies.
Rationals stand for the wire's floating-point numbers, integers for its
integral timestamps. -/
inductive Json where
  | null
  | str (s : String)
  | num (q : Rat)
  | int (n : Int)
  | arr (xs : List Json)
  | obj (fields : List (String × Json))

/-- First value bound to a key in a JSON object's field list. -/
def lookup_field : List (String × Json) → String → Option Json
  | [], _ => none
  | (k, v) :: rest, key => if k == key then some v else lookup_field rest key

/-- Field access on a JSON value: a key lookup on objects, none otherwise. -/
def Json.get_field : Json → String → Option Json
  | Json.obj fields, key => lookup_field fields key
  | _, _ => none

/-- String content of a JSON value, when it is a string. -/
def Json.as_str : Json → Option String
  | Json.str s => some s
  | _ => none

/-- Numeric content of a JSON value, when it is a number. -/
def Json.as_num : Json → Option Rat
  | Json.num q => some q
  | _ => none

/-- Integer content of a JSON value, when it is an integer. -/
def Json.as_int : Json → Option Int
  | Json.int n => some n
  | _ => none

/-- A spatial bounding box: lower-left and upper-right corner coordinates. -/
structure BoundingBox2D where
  xmin : Rat
  ymin : Rat
  xmax : Rat
  ymax : Rat
deriving DecidableEq

/-- A time interval between two millisecond instants; may be degenerate
(start = stop, a single instant).  The wire names of the two fields are
start and end. -/
structure TimeInterval where
  start : Int
  stop : Int
deriving DecidableEq

/-- The spatial resolution of a query: x and y pixel size. -/
structure SpatialResolution where
  x : Rat
  y : Rat
deriving DecidableEq

/-- Modelled from the spec: a query rectangle bundles spatial bounds, time
interval, resolution and a spatial reference identifier (section 3). -/
structure QueryRectangle where
  spatial_bounds : BoundingBox2D
  time_interval : TimeInterval
  resolution : SpatialResolution
  srs : String
deriving DecidableEq

/-- Modelled from the spec: constructing a bounding box that violates
xmin ≤ xmax or ymin ≤ ymax fails (section 3 invariant; the validating
constructor itself is not in the repository snapshot). -/
def BoundingBox2D.make (xmin ymin xmax ymax : Rat) :
    Except GeoEngineError BoundingBox2D :=
  if xmin ≤ xmax ∧ ymin ≤ ymax then Except.ok ⟨xmin, ymin, xmax, ymax⟩
  else Except.error (GeoEngineError.InputError "invalid bounding box")

/-- Modelled from the spec: constructing a time interval with start after
end fails; a single instant (start = end) is accepted (section 3). -/
def TimeInterval.make (s e : Int) : Except GeoEngineError TimeInterval :=
  if s ≤ e then Except.ok ⟨s, e⟩
  else Except.error (GeoEngineError.InputError "invalid time interval")

/-- Modelled from the spec: constructing a resolution that is not strictly
positive in both axes fails (section 3). -/
def SpatialResolution.make (x y : Rat) : Except GeoEngineError SpatialResolution :=
  if 0 < x ∧ 0 < y then Except.ok ⟨x, y⟩
  else Except.error (GeoEngineError.InputError "invalid spatial resolution")

/-- The section 3 invariant of an accepted query rectangle: ordered bounds,
ordered time, positive resolution. -/
def QueryRectangle.invariant (q : QueryRectangle) : Prop :=
  q.spatial_bounds.xmin ≤ q.spatial_bounds.xmax ∧
  q.spatial_bounds.ymin ≤ q.spatial_bounds.ymax ∧
  q.time_interval.start ≤ q.time_interval.stop ∧
  0 < q.resolution.x ∧ 0 < q.resolution.y

/-- Strict validity as used by the round-trip property of section 8:
xmin < xmax, ymin < ymax, start ≤ end, resolution > 0. -/
def QueryRectangle.strict_valid (q : QueryRectangle) : Prop :=
  q.spatial_bounds.xmin < q.spatial_bounds.xmax ∧
  q.spatial_bounds.ymin < q.spatial_bounds.ymax ∧
  q.time_interval.start ≤ q.time_interval.stop ∧
  0 < q.resolution.x ∧ 0 < q.resolution.y

instance (q : QueryRectangle) : Decidable q.invariant := by
  unfold QueryRectangle.invariant; infer_instance

instance (q : QueryRectangle) : Decidable q.strict_valid := by
  unfold QueryRectangle.strict_valid; infer_instance

/-- Wire encoding of a bounding box inside the spatialBounds member. -/
def BoundingBox2D.to_wire (b : BoundingBox2D) : Json :=
  Json.obj [("xmin", Json.num b.xmin), ("ymin", Json.num b.ymin),
            ("xmax", Json.num b.xmax), ("ymax", Json.num b.ymax)]

/-- Wire encoding of a time interval: start and end instants. -/
def TimeInterval.to_wire (t : TimeInterval) : Json :=
  Json.obj [("start", Json.int t.start), ("end", Json.int t.stop)]

/-- Wire encoding of a spatial resolution: x and y pixel size. -/
def SpatialResolution.to_wire (r : SpatialResolution) : Json :=
  Json.obj [("x", Json.num r.x), ("y", Json.num r.y)]

/-- Modelled from the spec: a query rectangle is serialized as an object with
members spatialBounds, timeInterval, resolution and spatialReference
(section 6). -/
def QueryRectangle.to_wire (q : QueryRectangle) : Json :=
  Json.obj [("spatialBounds", q.spatial_bounds.to_wire),
            ("timeInterval", q.time_interval.to_wire),
            ("resolution", q.resolution.to_wire),
            ("spatialReference", Json.str q.srs)]

/-- Decoding of a wire bounding box. -/
def BoundingBox2D.from_wire (j : Json) : Option BoundingBox2D := do
  let xmin ← (← j.get_field "xmin").as_num
  let ymin ← (← j.get_field "ymin").as_num
  let xmax ← (← j.get_field "xmax").as_num
  let ymax ← (← j.get_field "ymax").as_num
  pure ⟨xmin, ymin, xmax, ymax⟩

/-- Decoding of a wire time interval. -/
def TimeInterval.from_wire (j : Json) : Option TimeInterval := do
  let s ← (← j.get_field "start").as_int
  let e ← (← j.get_field "end").as_int
  pure ⟨s, e⟩

/-- Decoding of a wire spatial resolution. -/
def SpatialResolution.from_wire (j : Json) : Option SpatialResolution := do
  let x ← (← j.get_field "x").as_num
  let y ← (← j.get_field "y").as_num
  pure ⟨x, y⟩

/-- Modelled from the spec: the decode path of the query-rectangle wire
format (section 8 assumes one exists for the round-trip property). -/
def QueryRectangle.from_wire (j : Json) : Option QueryRectangle := do
  let b ← BoundingBox2D.from_wire (← j.get_field "spatialBounds")
  let t ← TimeInterval.from_wire (← j.get_field "timeInterval")
  let r ← SpatialResolution.from_wire (← j.get_field "resolution")
  let srs ← (← j.get_field "spatialReference").as_str
  pure ⟨b, t, r, srs⟩

/-- The hexadecimal digit character for a value below sixteen. -/
def hex_digit (n : Nat) : Char := Nat.digitChar n

/-- Whether a character is a lowercase hexadecimal digit. -/
def is_hex_char (c : Char) : Bool :=
  (List.range 16).any (fun m => Nat.digitChar m == c)

/-- The fixed-width hexadecimal rendering of a number, most significant
digit first. -/
def hex_chars : Nat → Nat → List Char
  | 0, _ => []
  | len + 1, n => hex_chars len (n / 16) ++ [hex_digit (n % 16)]

/-- The character sequence of a UUID in canonical 8-4-4-4-12 form derived
from a number. -/
def uuid_chars (n : Nat) : List Char :=
  hex_chars 8 n ++
    '-' :: (hex_chars 4 (n / 16 ^ 8) ++
      '-' :: (hex_chars 4 (n / 16 ^ 12) ++
        '-' :: (hex_chars 4 (n / 16 ^ 16) ++
          '-' :: hex_chars 12 (n / 16 ^ 20))))

/-- Modelled from the spec: the server derives fresh identifiers in UUID
form; here deterministically from a counter. -/
def uuid_of_nat (n : Nat) : String := String.mk (uuid_chars n)

/-- Consume exactly a count of hexadecimal characters, returning the rest of
the input, or none. -/
def group_ok : Nat → List Char → Option (List Char)
  | 0, rest => some rest
  | _ + 1, [] => none
  | k + 1, c :: rest => if is_hex_char c then group_ok k rest else none

/-- Whether a character sequence consists of dash-separated hexadecimal
groups of the given widths, consuming the whole input. -/
def groups_ok : List Nat → List Char → Bool
  | [], cs => cs.isEmpty
  | k :: ks, cs =>
    match group_ok k cs with
    | none => false
    | some rest =>
      match ks with
      | [] => rest.isEmpty
      | _ :: _ =>
        match rest with
        | [] => false
        | c :: r2 => c == '-' && groups_ok ks r2

/-- Whether a string has the canonical 8-4-4-4-12 UUID shape. -/
def is_uuid_shaped (s : String) : Bool := groups_ok [8, 4, 4, 4, 12] s.data

/-- A value in a cell of a decoded vector table. -/
inductive CellValue where
  | geom (wkt : String)
  | text (s : String)
  | time (t : Int)
  | not_a_time
  | null
deriving DecidableEq

/-- A decoded vector result: a geometry-aware table with named columns. -/
structure VectorTable where
  columns : List String
  rows : List (List CellValue)
deriving DecidableEq

/-- A vector feature as stored by the modelled server: a geometry (opaque
well-known text plus its bounding box), attribute values, and optional
validity time. -/
structure Feature where
  geometry : String
  bounds : BoundingBox2D
  attributes : List (String × String)
  time_start : Option Int
  time_end : Option Int
deriving DecidableEq

/-- Whether two bounding boxes intersect. -/
def intersects (a b : BoundingBox2D) : Bool :=
  a.xmin ≤ b.xmax && b.xmin ≤ a.xmax && a.ymin ≤ b.ymax && b.ymin ≤ a.ymax

/-- A geometry-bearing dataframe on the client side, about to be uploaded:
attribute column names and features. -/
structure GeoDataFrame where
  columns : List String
  features : List Feature

/-- A named, server-stored dataset (section 3 Glossary). -/
structure Dataset where
  name : String
  columns : List String
  features : List Feature

/-- The modelled server's visible state: stored datasets, registered
workflows (identifier and definition), and an identifier counter. -/
structure ServerState where
  datasets : List Dataset
  workflows : List (String × Json)
  next_id : Nat

/-- An HTTP request issued by the client, recorded so that theorems can
state which network calls an operation performs. -/
structure HttpRequest where
  method : String
  path : String
  body : Json

/-- The opaque workflow identifier handed back by the server (section 3). -/
structure WorkflowHandle where
  id : String
deriving DecidableEq

/-- The declared output type of a workflow. -/
inductive WorkflowOutputKind where
  | Vector
  | Raster
  | Plot
deriving DecidableEq

/-- The recognized top-level workflow types, as their wire strings. -/
def parse_output_kind (t : String) : Option WorkflowOutputKind :=
  if t = "Vector" then some WorkflowOutputKind.Vector
  else if t = "Raster" then some WorkflowOutputKind.Raster
  else if t = "Plot" then some WorkflowOutputKind.Plot
  else none

/-- The top-level type string of a workflow definition. -/
def workflow_type_of (defn : Json) : Option String :=
  (defn.get_field "type").bind Json.as_str

/-- Modelled from the spec: `upload_dataframe(df)` serializes the dataframe,
the server stores it as a dataset and assigns it a name made of two
UUID-form identifiers separated by a colon, as recorded in the upload
notebook's output (section 4.4). -/
def upload_dataframe (df : GeoDataFrame) (st : ServerState) : ServerState × String :=
  let name := uuid_of_nat st.next_id ++ ":" ++ uuid_of_nat (st.next_id + 1)
  ({ st with
      datasets := ⟨name, df.columns, df.features⟩ :: st.datasets,
      next_id := st.next_id + 2 },
   name)

/-- Modelled from the spec: `delete_dataset(name)` maps one-to-one onto the
REST endpoint; the server removes the dataset or reports a structured error
(section 4.4). -/
def delete_dataset (name : String) (st : ServerState) :
    ServerState × Except GeoEngineError Unit :=
  if st.datasets.any (fun d => d.name == name) then
    ({ st with datasets := st.datasets.filter (fun d => d.name != name) },
     Except.ok ())
  else
    (st, Except.error (GeoEngineError.ServerError "UnknownDatasetName"
      ("Dataset name " ++ name ++ " does not exist")))

/-- Modelled from the spec: `register_workflow(definition)` validates that
the definition has a recognized top-level type (Vector, Raster, Plot) before
sending; on an unrecognized type it fails locally, issuing no request; on
success the server stores the definition and returns a workflow identifier
(section 4.2).  Returns the requests issued, the new server state and the
result. -/
def register_workflow (defn : Json) (st : ServerState) :
    List HttpRequest × ServerState × Except GeoEngineError WorkflowHandle :=
  match workflow_type_of defn with
  | none =>
    ([], st, Except.error (GeoEngineError.InputError
      "workflow definition has no recognized top-level type"))
  | some t =>
    match parse_output_kind t with
    | none =>
      ([], st, Except.error (GeoEngineError.InputError
        ("unknown workflow type " ++ t)))
    | some _ =>
      let id := uuid_of_nat st.next_id
      ([⟨"POST", "/workflow", defn⟩],
       { st with workflows := (id, defn) :: st.workflows, next_id := st.next_id + 1 },
       Except.ok ⟨id⟩)

/-- The stored definition of a registered workflow. -/
def lookup_workflow (st : ServerState) (id : String) : Option Json :=
  (st.workflows.find? (fun p => p.1 == id)).map (fun p => p.2)

/-- Modelled from the spec: the server side of the result-descriptor request:
the declared output type of a registered workflow, without executing it
(section 4.2). -/
def server_result_descriptor (st : ServerState) (id : String) :
    Except GeoEngineError WorkflowOutputKind :=
  match lookup_workflow st id with
  | none => Except.error (GeoEngineError.ServerError "NotFound" "workflow not found")
  | some defn =>
    match workflow_type_of defn with
    | none => Except.error (GeoEngineError.ServerError "Internal"
        "stored workflow has no type")
    | some t =>
      match parse_output_kind t with
      | none => Except.error (GeoEngineError.ServerError "Internal"
          "stored workflow has an unknown type")
      | some k => Except.ok k

/-- The dataset name referenced by an OgrSource operator at the root of a
workflow definition, when the definition has that shape. -/
def ogr_source_dataset (defn : Json) : Option String :=
  (defn.get_field "operator").bind (fun op =>
    ((op.get_field "type").bind Json.as_str).bind (fun t =>
      if t = "OgrSource" then
        ((op.get_field "params").bind (fun p => p.get_field "data")).bind Json.as_str
      else none))

/-- Modelled from the spec: the server's evaluation of a feature query for a
registered OgrSource vector workflow: the referenced dataset's columns and
the features intersecting the query bounds, or a structured error — in
particular the UnknownDatasetName error recorded in the add-dataset
notebook's output when the dataset name does not exist (sections 4.3 and 7). -/
def server_execute_vector (st : ServerState) (id : String) (q : QueryRectangle) :
    Except GeoEngineError (List String × List Feature) :=
  match lookup_workflow st id with
  | none => Except.error (GeoEngineError.ServerError "NotFound" "workflow not found")
  | some defn =>
    match ogr_source_dataset defn with
    | none => Except.error (GeoEngineError.ServerError "Operator"
        "invalid operator graph")
    | some name =>
      match st.datasets.find? (fun d => d.name == name) with
      | none => Except.error (GeoEngineError.ServerError "UnknownDatasetName"
          ("Dataset name " ++ name ++ " does not exist"))
      | some d =>
        Except.ok (d.columns, d.features.filter (fun f => intersects f.bounds q.spatial_bounds))

/-- Modelled from the spec: the chart specification the server returns for a
plot query: a vega-lite JSON document embedding the data series
(section 4.3). -/
def vega_chart (defn : Json) (q : QueryRectangle) : Json :=
  Json.obj [("vegaString", Json.str "vega-lite"),
            ("plotDefinition", defn),
            ("query", q.to_wire)]

/-- Modelled from the spec: the server's evaluation of a plot query for a
registered plot workflow (section 4.3); the chart computation itself is
abstracted as always producing the workflow's chart specification. -/
def server_execute_plot (st : ServerState) (id : String) (q : QueryRectangle) :
    Except GeoEngineError Json :=
  match lookup_workflow st id with
  | none => Except.error (GeoEngineError.ServerError "NotFound" "workflow not found")
  | some defn =>
    match workflow_type_of defn with
    | some t =>
      if t = "Plot" then Except.ok (vega_chart defn q)
      else Except.error (GeoEngineError.ServerError "Operator" "workflow is not a plot")
    | none => Except.error (GeoEngineError.ServerError "Operator" "workflow is not a plot")

/-- A decoded plot result: the chart specification (section 4.3). -/
structure PlotSpec where
  chart : Json

/-- The result-descriptor request for a workflow. -/
def metadata_request (id : String) : HttpRequest :=
  ⟨"GET", "/workflow/" ++ id ++ "/metadata", Json.null⟩

/-- The feature-query request for a vector workflow over a query
rectangle. -/
def wfs_request (id : String) (q : QueryRectangle) : HttpRequest :=
  ⟨"GET", "/wfs/" ++ id, q.to_wire⟩

/-- The plot-data request for a plot workflow over a query rectangle. -/
def plot_request (id : String) (q : QueryRectangle) : HttpRequest :=
  ⟨"GET", "/plot/" ++ id, q.to_wire⟩

/-- The table cell for an optional time instant: the not-a-time marker when
the data carry no time information. -/
def time_cell : Option Int → CellValue
  | none => CellValue.not_a_time
  | some t => CellValue.time t

/-- The table cell for a feature's attribute column. -/
def attr_cell (f : Feature) (c : String) : CellValue :=
  match (f.attributes.find? (fun p => p.1 == c)).map (fun p => p.2) with
  | some v => CellValue.text v
  | none => CellValue.null

/-- Modelled from the spec: the geometry-aware table decoded from a feature
query response: a geometry column, one column per attribute, and start and
end time columns, with a not-a-time marker where the data carry no time
(section 4.3; column layout as recorded in the upload notebook's output). -/
def table_of_features (attr_columns : List String) (fs : List Feature) : VectorTable :=
  { columns := "geometry" :: attr_columns ++ ["start", "end"],
    rows := fs.map (fun f =>
      CellValue.geom f.geometry ::
        attr_columns.map (attr_cell f) ++
          [time_cell f.time_start, time_cell f.time_end]) }

/-- Modelled from the spec: `get_dataframe(query_rectangle)` first obtains
the workflow's declared output type; if it is not Vector the call fails fast
with SchemaMismatchError, issuing no data request and parsing nothing;
otherwise it issues the feature query and decodes the response into a
geometry-aware table (section 4.3).  Returns the requests issued alongside
the result. -/
def get_dataframe (w : WorkflowHandle) (q : QueryRectangle) (st : ServerState) :
    List HttpRequest × Except GeoEngineError VectorTable :=
  match server_result_descriptor st w.id with
  | Except.error e => ([metadata_request w.id], Except.error e)
  | Except.ok kind =>
    if kind = WorkflowOutputKind.Vector then
      match server_execute_vector st w.id q with
      | Except.error e => ([metadata_request w.id, wfs_request w.id q], Except.error e)
      | Except.ok (cols, fs) =>
        ([metadata_request w.id, wfs_request w.id q],
         Except.ok (table_of_features cols fs))
    else
      ([metadata_request w.id],
       Except.error (GeoEngineError.SchemaMismatchError
         "workflow output type is not Vector"))

/-- Modelled from the spec: `plot_chart(query_rectangle)` first obtains the
workflow's declared output type; if it is not Plot the call fails fast with
SchemaMismatchError, issuing no data request and parsing nothing; otherwise
it issues the plot query and decodes the chart specification
(section 4.3). -/
def plot_chart (w : WorkflowHandle) (q : QueryRectangle) (st : ServerState) :
    List HttpRequest × Except GeoEngineError PlotSpec :=
  match server_result_descriptor st w.id with
  | Except.error e => ([metadata_request w.id], Except.error e)
  | Except.ok kind =>
    if kind = WorkflowOutputKind.Plot then
      match server_execute_plot st w.id q with
      | Except.error e => ([metadata_request w.id, plot_request w.id q], Except.error e)
      | Except.ok spec =>
        ([metadata_request w.id, plot_request w.id q], Except.ok ⟨spec⟩)
    else
      ([metadata_request w.id],
       Except.error (GeoEngineError.SchemaMismatchError
         "workflow output type is not Plot"))

/-- The vector workflow definition used by the notebooks: an OgrSource over
a dataset name. -/
def ogr_workflow (data : String) : Json :=
  Json.obj [("type", Json.str "Vector"),
            ("operator", Json.obj
              [("type", Json.str "OgrSource"),
               ("params", Json.obj
                 [("data", Json.str data),
                  ("attributeProjection", Json.null)])])]

/-! ## Helper lemmas -/

theorem hex_digit_is_hex (m : Nat) (h : m < 16) : is_hex_char (hex_digit m) = true := by
  unfold hex_digit is_hex_char
  rw [List.any_eq_true]
  exact ⟨m, List.mem_range.mpr h, by simp⟩

theorem hex_chars_length (len : Nat) : ∀ n : Nat, (hex_chars len n).length = len := by
  induction len with
  | zero => intro n; rfl
  | succ k ih => intro n; simp [hex_chars, ih]

theorem hex_chars_all_hex (len : Nat) :
    ∀ (n : Nat), ∀ c ∈ hex_chars len n, is_hex_char c = true := by
  induction len with
  | zero => intro n c hc; simp [hex_chars] at hc
  | succ k ih =>
    intro n c hc
    simp only [hex_chars, List.mem_append, List.mem_singleton] at hc
    rcases hc with hc | hc
    · exact ih (n / 16) c hc
    · subst hc; exact hex_digit_is_hex (n % 16) (Nat.mod_lt n (by omega))

theorem group_ok_append (cs rest : List Char) (h : ∀ c ∈ cs, is_hex_char c = true) :
    group_ok cs.length (cs ++ rest) = some rest := by
  induction cs with
  | nil => rfl
  | cons c cs2 ih =>
    simp only [List.length_cons, List.cons_append, group_ok,
      h c (List.mem_cons_self c cs2), if_true]
    exact ih (fun x hx => h x (List.mem_cons_of_mem c hx))

theorem group_ok_hex_chars (len n : Nat) (rest : List Char) :
    group_ok len (hex_chars len n ++ rest) = some rest := by
  have h := group_ok_append (hex_chars len n) rest (hex_chars_all_hex len n)
  rwa [hex_chars_length] at h

theorem uuid_of_nat_shaped (n : Nat) : is_uuid_shaped (uuid_of_nat n) = true := by
  have h8 := group_ok_hex_chars 8 n
  have h4a := group_ok_hex_chars 4 (n / 16 ^ 8)
  have h4b := group_ok_hex_chars 4 (n / 16 ^ 12)
  have h4c := group_ok_hex_chars 4 (n / 16 ^ 16)
  have h12 := group_ok_hex_chars 12 (n / 16 ^ 20) []
  rw [List.append_nil] at h12
  simp only [is_uuid_shaped, uuid_of_nat, uuid_chars, groups_ok, h8, h4a, h4b, h4c, h12]
  simp

theorem last_two_cells {α : Type} (x a b : α) (m : List α) :
    (x :: (m ++ [a, b])).getLast? = some b ∧
    (x :: (m ++ [a, b])).dropLast.getLast? = some a := by
  have hsplit : x :: (m ++ [a, b]) = (x :: (m ++ [a])) ++ [b] := by
    simp
  constructor
  · rw [hsplit, List.getLast?_concat]
  · rw [hsplit, List.dropLast_concat]
    have h2 : x :: (m ++ [a]) = (x :: m) ++ [a] := by simp
    rw [h2, List.getLast?_concat]

/-! ## Claim theorems -/

/-- C1: with no stored session, get_session fails with NotInitializedError;
after a successful initialize(server_url, credentials?), get_session returns
a session whose server_url equals the URL passed in; after reset() the
stored session is cleared, so get_session fails again. -/
theorem session_lifecycle (url : String) (creds : Option Credentials) (env : Env)
    (server : LoginRequest → Except GeoEngineError LoginResponse) (r : LoginResponse)
    (hs : server (resolve_credentials creds env) = Except.ok r) :
    get_session none = Except.error GeoEngineError.NotInitializedError ∧
    (∃ s, (initialize_session url creds env server none).2 = Except.ok s ∧
      s.server_url = url ∧
      get_session (initialize_session url creds env server none).1 = Except.ok s) ∧
    (∀ st : Option Session,
      get_session (reset st) = Except.error GeoEngineError.NotInitializedError) := by
  refine ⟨rfl, ⟨⟨url, r.token, r.user_id, r.valid_until⟩, ?_, rfl, ?_⟩, fun st => rfl⟩
  · simp [initialize_session, hs]
  · simp [initialize_session, hs, get_session]

/-- Witness for C1 at a concrete URL, environment and login server. -/
theorem session_lifecycle_witness :
    get_session none = Except.error GeoEngineError.NotInitializedError ∧
    (∃ s, (initialize_session "http://localhost:3030/api" none (fun _ => none)
        (fun _ => Except.ok ⟨"tok", "user", 0⟩) none).2 = Except.ok s ∧
      s.server_url = "http://localhost:3030/api" ∧
      get_session (initialize_session "http://localhost:3030/api" none (fun _ => none)
        (fun _ => Except.ok ⟨"tok", "user", 0⟩) none).1 = Except.ok s) ∧
    (∀ st : Option Session,
      get_session (reset st) = Except.error GeoEngineError.NotInitializedError) :=
  session_lifecycle "http://localhost:3030/api" none (fun _ => none)
    (fun _ => Except.ok ⟨"tok", "user", 0⟩) ⟨"tok", "user", 0⟩ rfl

/-- C10: initialize may be called while a session is already stored; it
replaces the process-wide session with the new one without a prior reset,
and get_session afterwards returns the new session. -/
theorem initialize_replaces_session (url : String) (creds : Option Credentials)
    (env : Env) (server : LoginRequest → Except GeoEngineError LoginResponse)
    (r : LoginResponse) (s0 : Session)
    (hs : server (resolve_credentials creds env) = Except.ok r) :
    (initialize_session url creds env server (some s0)).1 =
      some ⟨url, r.token, r.user_id, r.valid_until⟩ ∧
    (initialize_session url creds env server (some s0)).2 =
      Except.ok ⟨url, r.token, r.user_id, r.valid_until⟩ ∧
    get_session (initialize_session url creds env server (some s0)).1 =
      Except.ok ⟨url, r.token, r.user_id, r.valid_until⟩ := by
  simp [initialize_session, hs, get_session]

/-- Witness for C10: re-initializing over a stored session for another user
yields the new session. -/
theorem initialize_replaces_session_witness :
    (initialize_session "http://h/api" none (fun _ => none)
      (fun _ => Except.ok ⟨"t2", "u2", 9⟩) (some ⟨"http://old/api", "t1", "u1", 1⟩)).1 =
      some ⟨"http://h/api", "t2", "u2", 9⟩ ∧
    (initialize_session "http://h/api" none (fun _ => none)
      (fun _ => Except.ok ⟨"t2", "u2", 9⟩) (some ⟨"http://old/api", "t1", "u1", 1⟩)).2 =
      Except.ok ⟨"http://h/api", "t2", "u2", 9⟩ ∧
    get_session (initialize_session "http://h/api" none (fun _ => none)
      (fun _ => Except.ok ⟨"t2", "u2", 9⟩) (some ⟨"http://old/api", "t1", "u1", 1⟩)).1 =
      Except.ok ⟨"http://h/api", "t2", "u2", 9⟩ :=
  initialize_replaces_session "http://h/api" none (fun _ => none)
    (fun _ => Except.ok ⟨"t2", "u2", 9⟩) ⟨"t2", "u2", 9⟩
    ⟨"http://old/api", "t1", "u1", 1⟩ rfl

/-- C8: when initialize is called without explicit credentials, the
environment variables GEOENGINE_EMAIL and GEOENGINE_PASSWORD (with .env
merged into the environment) are used for a credentialed login; an anonymous
session is requested only when no such credentials are present; explicit
credentials always win. -/
theorem credential_resolution (env : Env) (e p : String)
    (he : env "GEOENGINE_EMAIL" = some e)
    (hp : env "GEOENGINE_PASSWORD" = some p) :
    resolve_credentials none env = LoginRequest.credentialed ⟨e, p⟩ ∧
    (∀ env2 : Env,
      env2 "GEOENGINE_EMAIL" = none ∨ env2 "GEOENGINE_PASSWORD" = none →
      resolve_credentials none env2 = LoginRequest.anonymous) ∧
    (∀ (c : Credentials) (env3 : Env),
      resolve_credentials (some c) env3 = LoginRequest.credentialed c) := by
  refine ⟨by simp [resolve_credentials, he, hp], ?_, fun c env3 => rfl⟩
  intro env2 h
  rcases h with h | h
  · cases hq : env2 "GEOENGINE_PASSWORD" <;> simp [resolve_credentials, h, hq]
  · cases hq : env2 "GEOENGINE_EMAIL" <;> simp [resolve_credentials, h, hq]

/-- Witness for C8 at a concrete environment holding both variables. -/
theorem credential_resolution_witness :
    resolve_credentials none (fun v =>
      if v = "GEOENGINE_EMAIL" then some "mail" else
      if v = "GEOENGINE_PASSWORD" then some "pw" else none) =
      LoginRequest.credentialed ⟨"mail", "pw"⟩ ∧
    (∀ env2 : Env,
      env2 "GEOENGINE_EMAIL" = none ∨ env2 "GEOENGINE_PASSWORD" = none →
      resolve_credentials none env2 = LoginRequest.anonymous) ∧
    (∀ (c : Credentials) (env3 : Env),
      resolve_credentials (some c) env3 = LoginRequest.credentialed c) :=
  credential_resolution _ "mail" "pw" (by decide) (by decide)

/-- C5: for every valid query rectangle, serializing to the wire object with
members spatialBounds, timeInterval, resolution and spatialReference and
decoding back yields the same bounds, time interval, resolution and spatial
reference identifier. -/
theorem query_rectangle_wire_round_trip (q : QueryRectangle)
    (_hvalid : q.strict_valid) :
    QueryRectangle.from_wire q.to_wire = some q := rfl

/-- Witness for C5 at a concrete valid query rectangle. -/
theorem query_rectangle_wire_round_trip_witness :
    QueryRectangle.strict_valid ⟨⟨0, 0, 1, 1⟩, ⟨5, 5⟩, ⟨1, 1⟩, "EPSG:4326"⟩ ∧
    QueryRectangle.from_wire
        (QueryRectangle.to_wire ⟨⟨0, 0, 1, 1⟩, ⟨5, 5⟩, ⟨1, 1⟩, "EPSG:4326"⟩) =
      some ⟨⟨0, 0, 1, 1⟩, ⟨5, 5⟩, ⟨1, 1⟩, "EPSG:4326"⟩ :=
  ⟨by decide, query_rectangle_wire_round_trip _ (by decide)⟩

/-- C7: every query rectangle accepted by the client satisfies xmin ≤ xmax,
ymin ≤ ymax, start ≤ end and resolution > 0; a degenerate single-instant
time interval is accepted; constructing a component that violates the
invariant fails. -/
theorem query_rectangle_invariant
    (xmin ymin xmax ymax : Rat) (ts te : Int) (rx ry : Rat) (srs : String)
    (b : BoundingBox2D) (t : TimeInterval) (r : SpatialResolution)
    (hb : BoundingBox2D.make xmin ymin xmax ymax = Except.ok b)
    (ht : TimeInterval.make ts te = Except.ok t)
    (hr : SpatialResolution.make rx ry = Except.ok r) :
    (QueryRectangle.mk b t r srs).invariant ∧
    (∀ u : Int, TimeInterval.make u u = Except.ok ⟨u, u⟩) ∧
    (∀ a a2 c c2 : Rat, ¬(a ≤ c ∧ a2 ≤ c2) →
      BoundingBox2D.make a a2 c c2 =
        Except.error (GeoEngineError.InputError "invalid bounding box")) ∧
    (∀ u v : Int, v < u →
      TimeInterval.make u v =
        Except.error (GeoEngineError.InputError "invalid time interval")) ∧
    (∀ p p2 : Rat, ¬(0 < p ∧ 0 < p2) →
      SpatialResolution.make p p2 =
        Except.error (GeoEngineError.InputError "invalid spatial resolution")) := by
  unfold BoundingBox2D.make at hb
  unfold TimeInterval.make at ht
  unfold SpatialResolution.make at hr
  split at hb
  case isFalse => simp at hb
  case isTrue hbc =>
  split at ht
  case isFalse => simp at ht
  case isTrue htc =>
  split at hr
  case isFalse => simp at hr
  case isTrue hrc =>
  simp only [Except.ok.injEq] at hb ht hr
  subst hb; subst ht; subst hr
  refine ⟨⟨hbc.1, hbc.2, htc, hrc.1, hrc.2⟩, ?_, ?_, ?_, ?_⟩
  · intro u; simp [TimeInterval.make]
  · intro a a2 c c2 h; simp [BoundingBox2D.make, h]
  · intro u v h; simp [TimeInterval.make, h, Int.not_le.mpr h]
  · intro p p2 h; simp [SpatialResolution.make, h]

/-- Witness for C7 at concrete accepted components, including a degenerate
time interval. -/
theorem query_rectangle_invariant_witness :
    (QueryRectangle.mk ⟨0, 0, 2, 3⟩ ⟨7, 7⟩ ⟨1, 1⟩ "EPSG:4326").invariant ∧
    (∀ u : Int, TimeInterval.make u u = Except.ok ⟨u, u⟩) ∧
    (∀ a a2 c c2 : Rat, ¬(a ≤ c ∧ a2 ≤ c2) →
      BoundingBox2D.make a a2 c c2 =
        Except.error (GeoEngineError.InputError "invalid bounding box")) ∧
    (∀ u v : Int, v < u →
      TimeInterval.make u v =
        Except.error (GeoEngineError.InputError "invalid time interval")) ∧
    (∀ p p2 : Rat, ¬(0 < p ∧ 0 < p2) →
      SpatialResolution.make p p2 =
        Except.error (GeoEngineError.InputError "invalid spatial resolution")) :=
  query_rectangle_invariant 0 0 2 3 7 7 1 1 "EPSG:4326" ⟨0, 0, 2, 3⟩ ⟨7, 7⟩ ⟨1, 1⟩
    (by norm_num [BoundingBox2D.make]) (by norm_num [TimeInterval.make])
    (by norm_num [SpatialResolution.make])

/-- C6: registering a workflow whose top-level type is not one of Vector,
Raster, Plot fails locally: no request is issued, the server state is
untouched, and an input error is returned. -/
theorem register_unknown_type_fails_locally (defn : Json) (st : ServerState)
    (h : ∀ t, workflow_type_of defn = some t → parse_output_kind t = none) :
    (register_workflow defn st).1 = [] ∧
    (register_workflow defn st).2.1 = st ∧
    ∃ msg, (register_workflow defn st).2.2 =
      Except.error (GeoEngineError.InputError msg) := by
  unfold register_workflow
  cases hT : workflow_type_of defn with
  | none => simp
  | some t => simp [h t hT]

/-- Witness for C6 at a definition whose top-level type is Dataset. -/
theorem register_unknown_type_fails_locally_witness :
    (register_workflow (Json.obj [("type", Json.str "Dataset")]) ⟨[], [], 0⟩).1 = [] ∧
    (register_workflow (Json.obj [("type", Json.str "Dataset")]) ⟨[], [], 0⟩).2.1 =
      (⟨[], [], 0⟩ : ServerState) ∧
    ∃ msg, (register_workflow (Json.obj [("type", Json.str "Dataset")]) ⟨[], [], 0⟩).2.2 =
      Except.error (GeoEngineError.InputError msg) :=
  register_unknown_type_fails_locally _ _ (by
    intro t hT
    simp [workflow_type_of, Json.get_field, lookup_field, Json.as_str] at hT
    subst hT
    rfl)

/-- C4: the result kind corresponds to the workflow's declared output type:
a Plot workflow's plot_chart returns the decoded chart specification, a
Vector workflow's get_dataframe returns a geometry-aware table; and
requesting a dataframe from a workflow declared as Raster fails with
SchemaMismatchError after only the metadata request, before any data
request is issued or response data parsed. -/
theorem result_type_dispatch (st : ServerState) (w : WorkflowHandle)
    (q : QueryRectangle) (defn : Json)
    (hlook : lookup_workflow st w.id = some defn) :
    (workflow_type_of defn = some "Plot" →
      plot_chart w q st = ([metadata_request w.id, plot_request w.id q],
        Except.ok ⟨vega_chart defn q⟩)) ∧
    (workflow_type_of defn = some "Vector" →
      ∀ cols fs, server_execute_vector st w.id q = Except.ok (cols, fs) →
        (get_dataframe w q st).2 = Except.ok (table_of_features cols fs) ∧
        (table_of_features cols fs).columns.head? = some "geometry") ∧
    (workflow_type_of defn = some "Raster" →
      get_dataframe w q st = ([metadata_request w.id],
        Except.error (GeoEngineError.SchemaMismatchError
          "workflow output type is not Vector"))) := by
  refine ⟨?_, ?_, ?_⟩
  · intro h
    unfold plot_chart server_result_descriptor server_execute_plot
    simp [hlook, h, parse_output_kind]
  · intro h cols fs hexec
    unfold get_dataframe server_result_descriptor
    simp [hlook, h, parse_output_kind, hexec, table_of_features]
  · intro h
    unfold get_dataframe server_result_descriptor
    simp [hlook, h, parse_output_kind]

/-- Witness for C4 at a server holding one workflow declared as Raster. -/
theorem result_type_dispatch_witness :
    (workflow_type_of (Json.obj [("type", Json.str "Raster")]) = some "Plot" →
      plot_chart ⟨"w1"⟩ ⟨⟨0, 0, 1, 1⟩, ⟨0, 0⟩, ⟨1, 1⟩, "EPSG:4326"⟩
          ⟨[], [("w1", Json.obj [("type", Json.str "Raster")])], 0⟩ =
        ([metadata_request "w1",
          plot_request "w1" ⟨⟨0, 0, 1, 1⟩, ⟨0, 0⟩, ⟨1, 1⟩, "EPSG:4326"⟩],
         Except.ok ⟨vega_chart (Json.obj [("type", Json.str "Raster")])
           ⟨⟨0, 0, 1, 1⟩, ⟨0, 0⟩, ⟨1, 1⟩, "EPSG:4326"⟩⟩)) ∧
    (workflow_type_of (Json.obj [("type", Json.str "Raster")]) = some "Vector" →
      ∀ cols fs,
        server_execute_vector ⟨[], [("w1", Json.obj [("type", Json.str "Raster")])], 0⟩
            "w1" ⟨⟨0, 0, 1, 1⟩, ⟨0, 0⟩, ⟨1, 1⟩, "EPSG:4326"⟩ = Except.ok (cols, fs) →
        (get_dataframe ⟨"w1"⟩ ⟨⟨0, 0, 1, 1⟩, ⟨0, 0⟩, ⟨1, 1⟩, "EPSG:4326"⟩
            ⟨[], [("w1", Json.obj [("type", Json.str "Raster")])], 0⟩).2 =
          Except.ok (table_of_features cols fs) ∧
        (table_of_features cols fs).columns.head? = some "geometry") ∧
    (workflow_type_of (Json.obj [("type", Json.str "Raster")]) = some "Raster" →
      get_dataframe ⟨"w1"⟩ ⟨⟨0, 0, 1, 1⟩, ⟨0, 0⟩, ⟨1, 1⟩, "EPSG:4326"⟩
          ⟨[], [("w1", Json.obj [("type", Json.str "Raster")])], 0⟩ =
        ([metadata_request "w1"],
         Except.error (GeoEngineError.SchemaMismatchError
           "workflow output type is not Vector"))) :=
  result_type_dispatch ⟨[], [("w1", Json.obj [("type", Json.str "Raster")])], 0⟩
    ⟨"w1"⟩ ⟨⟨0, 0, 1, 1⟩, ⟨0, 0⟩, ⟨1, 1⟩, "EPSG:4326"⟩
    (Json.obj [("type", Json.str "Raster")]) rfl

/-- C3: after delete_dataset(name) succeeds, get_dataframe on a workflow
still referencing that dataset name returns a ServerError whose
server-assigned kind is UnknownDatasetName and whose message says the
dataset name does not exist; the error is the call's result, not
swallowed. -/
theorem delete_then_query_raises_server_error (st0 st1 : ServerState)
    (name : String) (w : WorkflowHandle) (q : QueryRectangle)
    (hw : lookup_workflow st0 w.id = some (ogr_workflow name))
    (hdel : delete_dataset name st0 = (st1, Except.ok ())) :
    (get_dataframe w q st1).2 =
      Except.error (GeoEngineError.ServerError "UnknownDatasetName"
        ("Dataset name " ++ name ++ " does not exist")) := by
  unfold delete_dataset at hdel
  split at hdel
  case isTrue hc =>
    have hst : st1 =
        { st0 with datasets := st0.datasets.filter (fun d => d.name != name) } := by
      have h2 := congrArg Prod.fst hdel
      exact h2.symm
    subst hst
    simp only [lookup_workflow] at hw
    have hnone : List.find? (fun (_ : Dataset) => false) st0.datasets = none :=
      List.find?_eq_none.mpr (by simp)
    unfold get_dataframe server_result_descriptor server_execute_vector
    simp [lookup_workflow, hw, ogr_workflow, workflow_type_of, ogr_source_dataset,
      Json.get_field, lookup_field, Json.as_str, parse_output_kind, hnone]
  case isFalse => simp at hdel

/-- Witness for C3: a server with one dataset and one workflow over it;
deleting the dataset and querying the workflow yields the structured
error. -/
theorem delete_then_query_raises_server_error_witness :
    (get_dataframe ⟨"w1"⟩ ⟨⟨0, 0, 1, 1⟩, ⟨0, 0⟩, ⟨1, 1⟩, "EPSG:4326"⟩
        ⟨[], [("w1", ogr_workflow "n1")], 0⟩).2 =
      Except.error (GeoEngineError.ServerError "UnknownDatasetName"
        ("Dataset name " ++ "n1" ++ " does not exist")) :=
  delete_then_query_raises_server_error
    ⟨[⟨"n1", [], []⟩], [("w1", ogr_workflow "n1")], 0⟩
    ⟨[], [("w1", ogr_workflow "n1")], 0⟩
    "n1" ⟨"w1"⟩ ⟨⟨0, 0, 1, 1⟩, ⟨0, 0⟩, ⟨1, 1⟩, "EPSG:4326"⟩ rfl rfl

/-- C9: the table a Vector workflow's get_dataframe returns has, besides the
geometry column and one column per attribute, the two time columns named
start and end, which were not among the uploaded attribute columns; when
the data carry no time information both hold the not-a-time marker in every
row. -/
theorem dataframe_time_columns (st : ServerState) (w : WorkflowHandle)
    (q : QueryRectangle) (name : String) (d : Dataset)
    (hw : lookup_workflow st w.id = some (ogr_workflow name))
    (hd : st.datasets.find? (fun x => x.name == name) = some d)
    (_hstart : "start" ∉ d.columns) (_hend : "end" ∉ d.columns)
    (htime : ∀ f ∈ d.features, f.time_start = none ∧ f.time_end = none) :
    ∃ tbl, (get_dataframe w q st).2 = Except.ok tbl ∧
      tbl.columns = "geometry" :: d.columns ++ ["start", "end"] ∧
      "start" ∈ tbl.columns ∧ "end" ∈ tbl.columns ∧
      ∀ r ∈ tbl.rows, r.getLast? = some CellValue.not_a_time ∧
        r.dropLast.getLast? = some CellValue.not_a_time := by
  refine ⟨table_of_features d.columns
      (d.features.filter (fun f => intersects f.bounds q.spatial_bounds)),
    ?_, rfl, by simp [table_of_features], by simp [table_of_features], ?_⟩
  · unfold get_dataframe server_result_descriptor server_execute_vector
    simp [hw, hd, ogr_workflow, workflow_type_of, ogr_source_dataset,
      Json.get_field, lookup_field, Json.as_str, parse_output_kind]
  · intro r hr
    simp only [table_of_features, List.mem_map] at hr
    obtain ⟨f, hf, hfr⟩ := hr
    have hf2 : f ∈ d.features := List.mem_of_mem_filter hf
    obtain ⟨hts, hte⟩ := htime f hf2
    subst hfr
    simpa [time_cell, hts, hte] using
      last_two_cells (CellValue.geom f.geometry) CellValue.not_a_time
        CellValue.not_a_time (d.columns.map (attr_cell f))

/-- Witness for C9 at a server holding one time-less single-feature dataset
with one attribute column. -/
theorem dataframe_time_columns_witness :
    ∃ tbl, (get_dataframe ⟨"w1"⟩ ⟨⟨0, 0, 1, 1⟩, ⟨0, 0⟩, ⟨1, 1⟩, "EPSG:4326"⟩
        ⟨[⟨"n1", ["label"], [⟨"G", ⟨0, 0, 1, 1⟩, [("label", "x")], none, none⟩]⟩],
         [("w1", ogr_workflow "n1")], 0⟩).2 = Except.ok tbl ∧
      tbl.columns = "geometry" ::
        (⟨"n1", ["label"], [⟨"G", ⟨0, 0, 1, 1⟩, [("label", "x")], none, none⟩]⟩ :
          Dataset).columns ++ ["start", "end"] ∧
      "start" ∈ tbl.columns ∧ "end" ∈ tbl.columns ∧
      ∀ r ∈ tbl.rows, r.getLast? = some CellValue.not_a_time ∧
        r.dropLast.getLast? = some CellValue.not_a_time :=
  dataframe_time_columns
    ⟨[⟨"n1", ["label"], [⟨"G", ⟨0, 0, 1, 1⟩, [("label", "x")], none, none⟩]⟩],
     [("w1", ogr_workflow "n1")], 0⟩
    ⟨"w1"⟩ ⟨⟨0, 0, 1, 1⟩, ⟨0, 0⟩, ⟨1, 1⟩, "EPSG:4326"⟩ "n1"
    ⟨"n1", ["label"], [⟨"G", ⟨0, 0, 1, 1⟩, [("label", "x")], none, none⟩]⟩
    rfl rfl (by simp) (by simp)
    (by intro f hf; simp only [List.mem_singleton] at hf; subst hf; exact ⟨rfl, rfl⟩)

/-- C2: uploading a two-row geodataframe returns a dataset name with a
UUID-shaped suffix; a workflow registered with an OgrSource referencing that
name, queried with get_dataframe over a rectangle meeting both features'
bounds, yields a table whose first column is the geometry column and which
has exactly two rows. -/
theorem upload_two_rows_roundtrip (st0 : ServerState) (df : GeoDataFrame)
    (f1 f2 : Feature) (q : QueryRectangle)
    (hrows : df.features = [f1, f2])
    (h1 : intersects f1.bounds q.spatial_bounds = true)
    (h2 : intersects f2.bounds q.spatial_bounds = true) :
    ∃ front u w tbl,
      (upload_dataframe df st0).2 = front ++ ":" ++ u ∧
      is_uuid_shaped u = true ∧
      (register_workflow (ogr_workflow (upload_dataframe df st0).2)
        (upload_dataframe df st0).1).2.2 = Except.ok w ∧
      (get_dataframe w q
        (register_workflow (ogr_workflow (upload_dataframe df st0).2)
          (upload_dataframe df st0).1).2.1).2 = Except.ok tbl ∧
      tbl.columns.head? = some "geometry" ∧
      tbl.rows.length = 2 := by
  refine ⟨uuid_of_nat st0.next_id, uuid_of_nat (st0.next_id + 1),
    ⟨uuid_of_nat (st0.next_id + 2)⟩,
    table_of_features df.columns [f1, f2],
    rfl, uuid_of_nat_shaped _, ?_, ?_, rfl, rfl⟩
  · rfl
  · unfold get_dataframe server_result_descriptor server_execute_vector
    simp [register_workflow, upload_dataframe, lookup_workflow, ogr_workflow,
      workflow_type_of, ogr_source_dataset, Json.get_field, lookup_field,
      Json.as_str, parse_output_kind, hrows, h1, h2, List.filter_cons,
      table_of_features]

/-- Witness for C2 at a fresh server and a concrete two-row geodataframe
queried over a rectangle containing both features. -/
theorem upload_two_rows_roundtrip_witness :
    ∃ front u w tbl,
      (upload_dataframe
        ⟨["label"],
         [⟨"P1", ⟨-121, 17, -56, 52⟩, [("label", "NA")], none, none⟩,
          ⟨"P2", ⟨4, 43, 16, 55⟩, [("label", "DE")], none, none⟩]⟩
        ⟨[], [], 0⟩).2 = front ++ ":" ++ u ∧
      is_uuid_shaped u = true ∧
      (register_workflow (ogr_workflow (upload_dataframe
          ⟨["label"],
           [⟨"P1", ⟨-121, 17, -56, 52⟩, [("label", "NA")], none, none⟩,
            ⟨"P2", ⟨4, 43, 16, 55⟩, [("label", "DE")], none, none⟩]⟩
          ⟨[], [], 0⟩).2)
        (upload_dataframe
          ⟨["label"],
           [⟨"P1", ⟨-121, 17, -56, 52⟩, [("label", "NA")], none, none⟩,
            ⟨"P2", ⟨4, 43, 16, 55⟩, [("label", "DE")], none, none⟩]⟩
          ⟨[], [], 0⟩).1).2.2 = Except.ok w ∧
      (get_dataframe w ⟨⟨-180, -90, 180, 90⟩, ⟨0, 0⟩, ⟨1, 1⟩, "EPSG:4326"⟩
        (register_workflow (ogr_workflow (upload_dataframe
            ⟨["label"],
             [⟨"P1", ⟨-121, 17, -56, 52⟩, [("label", "NA")], none, none⟩,
              ⟨"P2", ⟨4, 43, 16, 55⟩, [("label", "DE")], none, none⟩]⟩
            ⟨[], [], 0⟩).2)
          (upload_dataframe
            ⟨["label"],
             [⟨"P1", ⟨-121, 17, -56, 52⟩, [("label", "NA")], none, none⟩,
              ⟨"P2", ⟨4, 43, 16, 55⟩, [("label", "DE")], none, none⟩]⟩
            ⟨[], [], 0⟩).1).2.1).2 = Except.ok tbl ∧
      tbl.columns.head? = some "geometry" ∧
      tbl.rows.length = 2 :=
  upload_two_rows_roundtrip ⟨[], [], 0⟩
    ⟨["label"],
     [⟨"P1", ⟨-121, 17, -56, 52⟩, [("label", "NA")], none, none⟩,
      ⟨"P2", ⟨4, 43, 16, 55⟩, [("label", "DE")], none, none⟩]⟩
    ⟨"P1", ⟨-121, 17, -56, 52⟩, [("label", "NA")], none, none⟩
    ⟨"P2", ⟨4, 43, 16, 55⟩, [("label", "DE")], none, none⟩
    ⟨⟨-180, -90, 180, 90⟩, ⟨0, 0⟩, ⟨1, 1⟩, "EPSG:4326"⟩
    rfl (by norm_num [intersects]) (by norm_num [intersects])

end GeoEngine
